import Mathlib

/-!
Shallow embedding of `src/stream-lambda/lambda_function.py`, an AWS Lambda
handler that archives deleted DynamoDB records (delivered as EventBridge
events) to S3, together with proofs about its behaviour.

Python dictionaries are modelled as insertion-ordered association lists
(`List (String × J)`); Python values flowing through the handler are
modelled by the inductive type `J`.  Raising an exception is modelled with
`Except String`; the S3 client is modelled as a deterministic behaviour
`PutCall → Option String` (`none` = success, `some e` = `ClientError e`),
and every embedding of an S3-touching function also returns the list of
`put_object` calls it attempted.
-/

namespace DynamoArchive

/-- Model of a Python/JSON value as it flows through the lambda.  `raw s`
models a Python value that is not natively JSON-serialisable (for example a
timestamp object), carrying its `str()` representation `s`. -/
inductive J where
  | str (s : String)
  | int (n : Int)
  | bool (b : Bool)
  | null
  | arr (xs : List J)
  | obj (fields : List (String × J))
  | raw (s : String)
deriving Repr

/-- First-match lookup in an association list; models Python dict lookup
(dict keys are unique, insertion order preserved). -/
def lookupFirst : List (String × J) → String → Option J
  | [], _ => none
  | (k, v) :: rest, key => if k = key then some v else lookupFirst rest key

/-- Python truthiness (`if not x`) for the modelled values: empty
strings/containers, `0`, `False` and `None` are falsy. -/
def truthy : J → Bool
  | .str s => s ≠ ""
  | .int n => n ≠ 0
  | .bool b => b
  | .null => false
  | .arr xs => !xs.isEmpty
  | .obj fs => !fs.isEmpty
  | .raw _ => true

mutual
/-- Python `repr()` of a modelled value (used by `str()` on containers).
For `raw` values the carried string stands in for the representation. -/
def pyRepr : J → String
  | .str s => "'" ++ s ++ "'"
  | .int n => toString n
  | .bool b => if b then "True" else "False"
  | .null => "None"
  | .arr xs => "[" ++ pyReprList xs ++ "]"
  | .obj fs => "\x7b" ++ pyReprFields fs ++ "\x7d"
  | .raw s => s

/-- Comma-separated `repr()` of list elements. -/
def pyReprList : List J → String
  | [] => ""
  | [x] => pyRepr x
  | x :: y :: xs => pyRepr x ++ ", " ++ pyReprList (y :: xs)

/-- Comma-separated `repr()` of dict entries. -/
def pyReprFields : List (String × J) → String
  | [] => ""
  | [(k, v)] => "'" ++ k ++ "': " ++ pyRepr v
  | (k, v) :: g :: fs => "'" ++ k ++ "': " ++ pyRepr v ++ ", " ++ pyReprFields (g :: fs)
end

/-- Python `str()` of a modelled value, as used by f-string interpolation
and by `json.dumps(..., default=str)`. -/
def pyStr : J → String
  | .str s => s
  | j => pyRepr j

/-- Python `d.get(key, dflt)`: raises `AttributeError` when the receiver is
not a dict, otherwise returns the stored value or the default. -/
def dictGet (j : J) (key : String) (dflt : J) : Except String J :=
  match j with
  | .obj fs => .ok ((lookupFirst fs key).getD dflt)
  | _ => .error "AttributeError"

/-- Python `d.items()`: raises `AttributeError` when the receiver is not a
dict, otherwise yields the entries in insertion order. -/
def dictItems (j : J) : Except String (List (String × J)) :=
  match j with
  | .obj fs => .ok fs
  | _ => .error "AttributeError"

/-- Python `j == s` for a string literal `s`: only an equal `str` value
compares equal. -/
def pyEqStr (j : J) (s : String) : Bool :=
  match j with
  | .str t => t = s
  | _ => false

/-- JSON string escaping as performed by `json.dumps` (the characters the
archived records can contain). -/
def jsonEscapeChar (c : Char) : String :=
  if c = '"' then "\\\""
  else if c = '\\' then "\\\\"
  else if c = '\n' then "\\n"
  else if c = '\t' then "\\t"
  else if c = '\r' then "\\r"
  else String.singleton c

/-- JSON string escaping applied to a whole string. -/
def jsonEscape (s : String) : String :=
  String.join (s.toList.map jsonEscapeChar)

/-- An indentation prefix of `n` spaces. -/
def spaces (n : Nat) : String :=
  String.mk (List.replicate n ' ')

mutual
/-- `json.dumps(j, indent=2, default=str)` at current indentation `ind`:
non-JSON-native (`raw`) values are serialised as the JSON string of their
`str()` representation instead of failing. -/
def jsonDumpsAux : Nat → J → String
  | _, .str s => "\"" ++ jsonEscape s ++ "\""
  | _, .int n => toString n
  | _, .bool b => if b then "true" else "false"
  | _, .null => "null"
  | _, .raw s => "\"" ++ jsonEscape s ++ "\""
  | _, .arr [] => "[]"
  | ind, .arr (x :: xs) =>
      "[\n" ++ jsonDumpsItems (ind + 2) (x :: xs) ++ "\n" ++ spaces ind ++ "]"
  | _, .obj [] => "\x7b\x7d"
  | ind, .obj (f :: fs) =>
      "\x7b\n" ++ jsonDumpsFields (ind + 2) (f :: fs) ++ "\n" ++ spaces ind ++ "\x7d"

/-- Serialise list elements, one per line, comma-separated. -/
def jsonDumpsItems : Nat → List J → String
  | _, [] => ""
  | ind, [x] => spaces ind ++ jsonDumpsAux ind x
  | ind, x :: y :: xs =>
      spaces ind ++ jsonDumpsAux ind x ++ ",\n" ++ jsonDumpsItems ind (y :: xs)

/-- Serialise dict entries, one per line, comma-separated. -/
def jsonDumpsFields : Nat → List (String × J) → String
  | _, [] => ""
  | ind, [(k, v)] =>
      spaces ind ++ "\"" ++ jsonEscape k ++ "\": " ++ jsonDumpsAux ind v
  | ind, (k, v) :: g :: fs =>
      spaces ind ++ "\"" ++ jsonEscape k ++ "\": " ++ jsonDumpsAux ind v ++ ",\n" ++
        jsonDumpsFields ind (g :: fs)
end

/-- `json.dumps(record, indent=2, default=str)` as called by the archiver. -/
def jsonDumps (j : J) : String := jsonDumpsAux 0 j

/-- One `{recordId, error}` entry of `failed_records`. -/
structure FailedRecord where
  recordId : String
  error : String
deriving Repr, DecidableEq

/-- The dictionary returned by `lambda_handler`:
`{processedCount, totalRecords, failedRecords}`. -/
structure BatchResult where
  processedCount : Nat
  totalRecords : Nat
  failedRecords : List FailedRecord
deriving Repr, DecidableEq

/-- The arguments of one `s3_client.put_object` call. -/
structure PutCall where
  bucket : String
  key : String
  body : String
  contentType : String
deriving Repr, DecidableEq

/-- Deterministic model of the S3 client: `none` means the put succeeds,
`some e` means it raises `ClientError` with message `e`. -/
abbrev S3Behavior := PutCall → Option String

/-- Embedding of `_get_env_variable`: `os.getenv` is modelled by
`env : String → Option String`; a missing or empty value raises
`ValueError` (Python `if not value`). -/
def get_env_variable (env : String → Option String) (varName : String) :
    Except String String :=
  match env varName with
  | some v =>
      if v = "" then .error ("Required environment variable " ++ varName ++ " is not set")
      else .ok v
  | none => .error ("Required environment variable " ++ varName ++ " is not set")

/-- Embedding of `_is_delete_event`:
`record.get("eventName") == "REMOVE"`. -/
def is_delete_event (record : J) : Except String Bool :=
  match dictGet record "eventName" J.null with
  | .error e => .error e
  | .ok v => .ok (pyEqStr v "REMOVE")

/-- The inner double loop of `_get_record_id`: for each `(key, value_dict)`
of `Keys`, for each value of `value_dict`, emit `f"{key}_{value}"`. -/
def keyPartsOf : List (String × J) → Except String (List String)
  | [] => .ok []
  | (k, valueDict) :: rest =>
      match dictItems valueDict with
      | .error e => .error e
      | .ok inner =>
          match keyPartsOf rest with
          | .error e => .error e
          | .ok restParts =>
          .ok (inner.map (fun iv => k ++ "_" ++ pyStr iv.2) ++ restParts)

/-- Embedding of `_get_record_id`: join `Keys`-derived fragments with `_`,
falling back to `str(record.get("eventID", "unknown"))`. -/
def get_record_id (record : J) : Except String String :=
  match dictGet record "dynamodb" (J.obj []) with
  | .error e => .error e
  | .ok dynamodbData =>
  match dictGet dynamodbData "Keys" (J.obj []) with
  | .error e => .error e
  | .ok keys =>
  if truthy keys = false then
    match dictGet record "eventID" (J.str "unknown") with
    | .error e => .error e
    | .ok ev => .ok (pyStr ev)
  else
    match dictItems keys with
    | .error e => .error e
    | .ok items =>
    match keyPartsOf items with
    | .error e => .error e
    | .ok keyParts =>
    if keyParts.isEmpty then
      match dictGet record "eventID" (J.str "unknown") with
      | .error e => .error e
      | .ok ev => .ok (pyStr ev)
    else .ok (String.intercalate "_" keyParts)

/-- Body of `_extract_dynamodb_record` before its catch-all `except`:
read `detail` (default `{}`), check `source`, check `detail-type`, check
`detail` truthy, return `detail`. -/
def extractDynamodbRecordE (event : J) : Except String (Option J) :=
  match dictGet event "detail" (J.obj []) with
  | .error e => .error e
  | .ok detail =>
  match dictGet event "source" J.null with
  | .error e => .error e
  | .ok src =>
  if pyEqStr src "custom.dynamodb" = false then .ok none
  else
    match dictGet event "detail-type" J.null with
    | .error e => .error e
    | .ok dt =>
    if pyEqStr dt "DynamoDB Stream Event" = false then .ok none
    else if truthy detail = false then .ok none
    else .ok (some detail)

/-- Embedding of `_extract_dynamodb_record`: the catch-all `except` turns
any raised exception into `None`, so the function never raises. -/
def extract_dynamodb_record (event : J) : Option J :=
  match extractDynamodbRecordE event with
  | .ok r => r
  | .error _ => none

/-- Embedding of `_archive_record_to_s3`: derive the record id (this may
raise before any S3 call), build the key and body, attempt exactly one
`put_object`, and re-raise a `ClientError` unchanged.  The second component
lists the attempted put calls. -/
def archive_record_to_s3 (s3 : S3Behavior) (record : J)
    (tableName s3Bucket : String) : Except String Unit × List PutCall :=
  match get_record_id record with
  | .error e => (.error e, [])
  | .ok recordId =>
      let call : PutCall :=
        { bucket := s3Bucket
          key := tableName ++ "/" ++ recordId ++ ".json"
          body := jsonDumps record
          contentType := "application/json" }
      match s3 call with
      | none => (.ok (), [call])
      | some e => (.error e, [call])

/-- The `except` branch at lines 65-67 of the handler: it interpolates
`_get_record_id(record)` (which may itself raise, escaping the handler)
and appends one entry to `failed_records`; `pc` is the value
`processed_count` already reached. -/
def recordFailure (record : J) (pc : Nat) (e : String) :
    Except String (Nat × List FailedRecord) :=
  match get_record_id record with
  | .error e2 => .error e2
  | .ok rid => .ok (pc, [⟨rid, e⟩])

/-- The handler's inner `try` (lines 56-67): classify the record; archive
it when it is a REMOVE; the success log line re-derives the record id and
may raise; any exception is handled by `recordFailure`.  Returns
`(processed_count, failed_records)` or an escaped exception, plus the
attempted put calls. -/
def processRecord (s3 : S3Behavior) (record : J) (tableName s3Bucket : String) :
    Except String (Nat × List FailedRecord) × List PutCall :=
  match is_delete_event record with
  | .error e => (recordFailure record 0 e, [])
  | .ok true =>
      match archive_record_to_s3 s3 record tableName s3Bucket with
      | (.ok _, calls) =>
          match get_record_id record with
          | .error e => (recordFailure record 1 e, calls)
          | .ok _ => (.ok (1, []), calls)
      | (.error e, calls) => (recordFailure record 0 e, calls)
  | .ok false => (.ok (0, []), [])

/-- Embedding of `lambda_handler`: read the two required environment
variables, extract the enveloped record ( `None` ⇒ the early
`{0, 0, []}` return), process the single record, aggregate, and raise
`"Failed to process {n} records"` when `failed_records` is non-empty.
The outer `except` only logs and re-raises, so it is the identity on
errors. -/
def lambda_handler (env : String → Option String) (s3 : S3Behavior)
    (event : J) : Except String BatchResult × List PutCall :=
  match get_env_variable env "DYNAMODB_TABLE_NAME" with
  | .error e => (.error e, [])
  | .ok tableName =>
  match get_env_variable env "S3_BUCKET_NAME" with
  | .error e => (.error e, [])
  | .ok s3Bucket =>
  match extract_dynamodb_record event with
  | none => (.ok ⟨0, 0, []⟩, [])
  | some record =>
      match processRecord s3 record tableName s3Bucket with
      | (.error e, calls) => (.error e, calls)
      | (.ok (pc, failed), calls) =>
          if failed.isEmpty then (.ok ⟨pc, 1, failed⟩, calls)
          else
            (.error ("Failed to process " ++ toString failed.length ++ " records"),
             calls)

/-! Concrete fixtures mirroring `test_lambda_function.py`. -/

/-- The `Keys` mapping of the sample stream record of the test suite. -/
def sampleKeys : J :=
  J.obj [("id", J.obj [("S", J.str "user-123")]),
         ("timestamp", J.obj [("N", J.str "1234567890")])]

/-- A sample REMOVE stream record. -/
def sampleRecord : J :=
  J.obj [("eventID", J.str "test-event-id-123"),
         ("eventName", J.str "REMOVE"),
         ("dynamodb", J.obj [("Keys", sampleKeys)])]

/-- A valid EventBridge envelope wrapping `sampleRecord`. -/
def sampleEnvelope : J :=
  J.obj [("source", J.str "custom.dynamodb"),
         ("detail-type", J.str "DynamoDB Stream Event"),
         ("detail", sampleRecord)]

/-- An envelope whose `source` fails validation. -/
def wrongSourceEnvelope : J :=
  J.obj [("source", J.str "wrong.source"),
         ("detail-type", J.str "DynamoDB Stream Event"),
         ("detail", sampleRecord)]

/-- An environment providing both required variables. -/
def env0 : String → Option String := fun n =>
  if n = "DYNAMODB_TABLE_NAME" then some "test-table"
  else if n = "S3_BUCKET_NAME" then some "test-bucket"
  else none

/-- An environment providing no variables at all. -/
def envNone : String → Option String := fun _ => none

/-- An S3 behaviour on which every put succeeds. -/
def s3ok : S3Behavior := fun _ => none

/-- An S3 behaviour on which every put raises `ClientError`; a storage
capability that, if called, fails. -/
def s3err : S3Behavior := fun _ => some "AccessDenied"

/-- A REMOVE record with key `rec-1`. -/
def remRecord1 : J :=
  J.obj [("eventName", J.str "REMOVE"),
         ("dynamodb", J.obj [("Keys", J.obj [("id", J.obj [("S", J.str "rec-1")])])])]

/-- A REMOVE record with key `rec-2`. -/
def remRecord2 : J :=
  J.obj [("eventName", J.str "REMOVE"),
         ("dynamodb", J.obj [("Keys", J.obj [("id", J.obj [("S", J.str "rec-2")])])])]

/-- An INSERT record with key `rec-3`. -/
def insRecord : J :=
  J.obj [("eventName", J.str "INSERT"),
         ("dynamodb", J.obj [("Keys", J.obj [("id", J.obj [("S", J.str "rec-3")])])])]

/-- A direct-stream style payload: three candidate records under `Records`,
two of them REMOVE and one INSERT. -/
def recordsEvent : J :=
  J.obj [("Records", J.arr [remRecord1, remRecord2, insRecord])]

/-- An S3 behaviour that fails exactly on the archive key of `remRecord2`
and succeeds elsewhere: the "one write fails" storage of the batch
aggregation scenario. -/
def s3failSecond : S3Behavior := fun c =>
  if c.key = "test-table/id_rec-2.json" then some "AccessDenied" else none

/-! Theorems. -/

/-- Helper: on a `Keys` mapping whose every value is a one-entry mapping
from a type tag to a string literal, the fragment loop of `_get_record_id`
emits `name_literal` for each attribute, in iteration order. -/
theorem keyPartsOf_map (kvs : List (String × String × String)) :
    keyPartsOf (kvs.map fun p => (p.1, J.obj [(p.2.1, J.str p.2.2)])) =
      .ok (kvs.map fun p => p.1 ++ "_" ++ p.2.2) := by
  induction kvs with
  | nil => rfl
  | cons p rest ih => simp [keyPartsOf, dictItems, ih, pyStr]

/-- C1: for every record whose `dynamodb.Keys` mapping is present and
non-empty, with each key attribute mapped to a one-entry
`{type_tag: literal}` mapping, `_get_record_id` returns the fragments
`name_literal` in the mapping's iteration order, joined by `_`. -/
theorem get_record_id_keys (fields dfields : List (String × J))
    (kvs : List (String × String × String))
    (hdyn : (lookupFirst fields "dynamodb").getD (J.obj []) = J.obj dfields)
    (hkeys : (lookupFirst dfields "Keys").getD (J.obj []) =
      J.obj (kvs.map fun p => (p.1, J.obj [(p.2.1, J.str p.2.2)])))
    (hne : kvs ≠ []) :
    get_record_id (J.obj fields) =
      .ok (String.intercalate "_" (kvs.map fun p => p.1 ++ "_" ++ p.2.2)) := by
  cases kvs with
  | nil => exact absurd rfl hne
  | cons p rest =>
      have hkp := keyPartsOf_map (p :: rest)
      simp only [List.map_cons] at hkp hkeys
      simp [get_record_id, dictGet, hdyn, hkeys, dictItems, truthy, hkp]

/-- Witness for C1: the sample record with
`Keys = {"id":{"S":"user-123"},"timestamp":{"N":"1234567890"}}` yields
exactly `"id_user-123_timestamp_1234567890"`. -/
theorem get_record_id_keys_witness :
    get_record_id sampleRecord = Except.ok "id_user-123_timestamp_1234567890" := by
  show get_record_id (J.obj [("eventID", J.str "test-event-id-123"),
    ("eventName", J.str "REMOVE"), ("dynamodb", J.obj [("Keys", sampleKeys)])]) = _
  exact get_record_id_keys _ [("Keys", sampleKeys)]
    [("id", "S", "user-123"), ("timestamp", "N", "1234567890")] rfl rfl (by simp)

/-- C6 counterexample: on a record with no `Keys` whose `eventID` is
present but empty, `_get_record_id` returns `""`, not `"unknown"` — the
claim's "present and non-empty" reading of the fallback is wrong. -/
theorem get_record_id_empty_eventID_counterexample :
    get_record_id (J.obj [("eventID", J.str "")]) = Except.ok "" ∧
      get_record_id (J.obj [("eventID", J.str "")]) ≠ Except.ok "unknown" := by
  refine ⟨rfl, fun h => ?_⟩
  rw [show get_record_id (J.obj [("eventID", J.str "")]) = Except.ok "" from rfl] at h
  exact absurd (Except.ok.inj h) (by simp)

/-- C6 amended: for every record whose `dynamodb.Keys` mapping is falsy
(empty or absent), `_get_record_id` returns the `str()` of the `eventID`
value when that field is present — so a present-but-empty `eventID` yields
`""` — and the literal `"unknown"` when it is absent; in particular the
completely empty record yields `"unknown"` without raising. -/
theorem get_record_id_no_keys (fields dfields : List (String × J)) (kv : J)
    (hdyn : (lookupFirst fields "dynamodb").getD (J.obj []) = J.obj dfields)
    (hkeys : (lookupFirst dfields "Keys").getD (J.obj []) = kv)
    (hfalsy : truthy kv = false) :
    get_record_id (J.obj fields) =
      .ok (pyStr ((lookupFirst fields "eventID").getD (J.str "unknown"))) := by
  simp [get_record_id, dictGet, hdyn, hkeys, hfalsy]

/-- Witness for C6 amended: the completely empty record yields
`"unknown"` and does not raise. -/
theorem get_record_id_no_keys_witness :
    get_record_id (J.obj []) = Except.ok "unknown" :=
  get_record_id_no_keys [] [] (J.obj []) rfl rfl rfl

/-- C9: `_is_delete_event` on a record (a Python dict) returns true iff
`eventName` is present and equals the string `"REMOVE"` exactly; any other
value or an absent field yields false, and the function never raises
(its result is always `ok true` or `ok false`). -/
theorem is_delete_event_spec (fields : List (String × J)) :
    (is_delete_event (J.obj fields) = Except.ok true ↔
      lookupFirst fields "eventName" = some (J.str "REMOVE")) ∧
    (is_delete_event (J.obj fields) = Except.ok true ∨
      is_delete_event (J.obj fields) = Except.ok false) := by
  have hv : is_delete_event (J.obj fields) =
      .ok (pyEqStr ((lookupFirst fields "eventName").getD J.null) "REMOVE") := by
    simp [is_delete_event, dictGet]
  refine ⟨?_, ?_⟩
  · rw [hv]
    cases hl : lookupFirst fields "eventName" with
    | none => simp [pyEqStr]
    | some v => cases v <;> simp [pyEqStr]
  · rw [hv]
    cases pyEqStr ((lookupFirst fields "eventName").getD J.null) "REMOVE"
    · exact Or.inr rfl
    · exact Or.inl rfl

/-- Witness for C9: a record whose `eventName` is `"REMOVE"` is classified
as a deletion. -/
theorem is_delete_event_spec_witness :
    is_delete_event (J.obj [("eventName", J.str "REMOVE")]) = Except.ok true :=
  (is_delete_event_spec [("eventName", J.str "REMOVE")]).1.mpr rfl

/-- Helper: comparing a defaulted lookup with a string literal succeeds
iff the lookup found exactly that string (the defaults `null` / `{}` never
compare equal to a string). -/
theorem pyEqStr_getD_null (o : Option J) (s : String) :
    pyEqStr (o.getD J.null) s = true ↔ o = some (J.str s) := by
  cases o with
  | none => simp [pyEqStr]
  | some v => cases v <;> simp [pyEqStr]

/-- Helper: a boolean that is not `false` is `true`. -/
theorem bool_ne_false (b : Bool) (h : ¬ b = false) : b = true := by
  cases b
  · exact absurd rfl h
  · rfl

/-- C4: `_extract_dynamodb_record` never raises (it is `Option`-valued,
its catch-all `except` mapping any internal exception to `None`) and
returns a record exactly when the envelope is a mapping whose `source` is
`"custom.dynamodb"`, whose `detail-type` is `"DynamoDB Stream Event"`, and
whose `detail` is present and truthy — the checks short-circuiting in that
order in the definition — in which case the `detail` value is returned
unchanged. -/
theorem extract_dynamodb_record_spec (event d : J) :
    extract_dynamodb_record event = some d ↔
      ∃ fs, event = J.obj fs ∧
        lookupFirst fs "source" = some (J.str "custom.dynamodb") ∧
        lookupFirst fs "detail-type" = some (J.str "DynamoDB Stream Event") ∧
        lookupFirst fs "detail" = some d ∧ truthy d = true := by
  cases event with
  | str s => simp [extract_dynamodb_record, extractDynamodbRecordE, dictGet]
  | int n => simp [extract_dynamodb_record, extractDynamodbRecordE, dictGet]
  | bool b => simp [extract_dynamodb_record, extractDynamodbRecordE, dictGet]
  | null => simp [extract_dynamodb_record, extractDynamodbRecordE, dictGet]
  | arr xs => simp [extract_dynamodb_record, extractDynamodbRecordE, dictGet]
  | raw s => simp [extract_dynamodb_record, extractDynamodbRecordE, dictGet]
  | obj fs =>
      constructor
      · intro h
        refine ⟨fs, rfl, ?_⟩
        by_cases h1 :
            pyEqStr ((lookupFirst fs "source").getD J.null) "custom.dynamodb" = false
        · exact absurd h
            (by simp [extract_dynamodb_record, extractDynamodbRecordE, dictGet, h1])
        · by_cases h2 : pyEqStr ((lookupFirst fs "detail-type").getD J.null)
              "DynamoDB Stream Event" = false
          · exact absurd h
              (by simp [extract_dynamodb_record, extractDynamodbRecordE, dictGet, h1, h2])
          · by_cases h3 : truthy ((lookupFirst fs "detail").getD (J.obj [])) = false
            · exact absurd h
                (by simp [extract_dynamodb_record, extractDynamodbRecordE, dictGet,
                  h1, h2, h3])
            · have h1' := (pyEqStr_getD_null _ _).mp (bool_ne_false _ h1)
              have h2' := (pyEqStr_getD_null _ _).mp (bool_ne_false _ h2)
              have h3' : truthy ((lookupFirst fs "detail").getD (J.obj [])) = true :=
                bool_ne_false _ h3
              have hd : extract_dynamodb_record (J.obj fs) =
                  some ((lookupFirst fs "detail").getD (J.obj [])) := by
                simp [extract_dynamodb_record, extractDynamodbRecordE, dictGet,
                  h1', h2', h3', pyEqStr]
              rw [hd] at h
              have hdd := Option.some.inj h
              refine ⟨h1', h2', ?_⟩
              cases hl : lookupFirst fs "detail" with
              | none =>
                  rw [hl] at h3'
                  simp [truthy] at h3'
              | some v =>
                  rw [hl] at hdd
                  rw [hl] at h3'
                  simp only [Option.getD_some] at hdd h3'
                  subst hdd
                  exact ⟨rfl, h3'⟩
      · rintro ⟨fs2, heq, hs, hdt, hd, htr⟩
        injection heq with hfs
        subst hfs
        have h1 : pyEqStr ((lookupFirst fs "source").getD J.null)
            "custom.dynamodb" = true := (pyEqStr_getD_null _ _).mpr hs
        have h2 : pyEqStr ((lookupFirst fs "detail-type").getD J.null)
            "DynamoDB Stream Event" = true := (pyEqStr_getD_null _ _).mpr hdt
        have h3 : truthy ((lookupFirst fs "detail").getD (J.obj [])) = true := by
          rw [hd]; simpa using htr
        simp [extract_dynamodb_record, extractDynamodbRecordE, dictGet,
          h1, h2, h3, hd, htr]

/-- Witness for C4: the sample envelope passes all three checks and the
sample record is returned unchanged. -/
theorem extract_dynamodb_record_spec_witness :
    extract_dynamodb_record sampleEnvelope = some sampleRecord :=
  (extract_dynamodb_record_spec sampleEnvelope sampleRecord).mpr
    ⟨[("source", J.str "custom.dynamodb"),
      ("detail-type", J.str "DynamoDB Stream Event"),
      ("detail", sampleRecord)], rfl, rfl, rfl, rfl, rfl⟩

/-- C5: whenever identifier derivation succeeds, `_archive_record_to_s3`
attempts exactly one `put_object` call, with key
`{tableName}/{recordId}.json`, content type `application/json`, and body
`json.dumps(record, indent=2, default=str)`; moreover a non-JSON-native
(`raw`) value is serialised as the JSON string of its `str()`
representation instead of failing. -/
theorem archive_record_to_s3_spec (s3 : S3Behavior) (record : J)
    (tableName s3Bucket recordId : String)
    (hid : get_record_id record = .ok recordId) :
    (archive_record_to_s3 s3 record tableName s3Bucket).2 =
      [⟨s3Bucket, tableName ++ "/" ++ recordId ++ ".json", jsonDumps record,
        "application/json"⟩] ∧
    (∀ ind s, jsonDumpsAux ind (J.raw s) = "\"" ++ jsonEscape s ++ "\"") := by
  refine ⟨?_, fun ind s => rfl⟩
  cases hcall : s3 ⟨s3Bucket, tableName ++ "/" ++ recordId ++ ".json",
      jsonDumps record, "application/json"⟩ <;>
    simp [archive_record_to_s3, hid, hcall]

/-- Witness for C5: archiving the sample record attempts exactly the one
expected put call. -/
theorem archive_record_to_s3_spec_witness :
    (archive_record_to_s3 s3ok sampleRecord "test-table" "test-bucket").2 =
      [⟨"test-bucket", "test-table/id_user-123_timestamp_1234567890.json",
        jsonDumps sampleRecord, "application/json"⟩] :=
  (archive_record_to_s3_spec s3ok sampleRecord "test-table" "test-bucket"
    "id_user-123_timestamp_1234567890" rfl).1

/-- C7: if either required environment variable is missing or empty, the
handler raises the configuration error with no put call attempted (the
empty call list shows no record was processed and the storage capability
never invoked). -/
theorem lambda_handler_config_spec (env : String → Option String)
    (s3 : S3Behavior) (event : J)
    (h : env "DYNAMODB_TABLE_NAME" = none ∨ env "DYNAMODB_TABLE_NAME" = some "" ∨
      env "S3_BUCKET_NAME" = none ∨ env "S3_BUCKET_NAME" = some "") :
    ∃ varName, lambda_handler env s3 event =
      (.error ("Required environment variable " ++ varName ++ " is not set"), []) := by
  rcases h with h | h | h | h
  · exact ⟨"DYNAMODB_TABLE_NAME", by simp [lambda_handler, get_env_variable, h]⟩
  · exact ⟨"DYNAMODB_TABLE_NAME", by simp [lambda_handler, get_env_variable, h]⟩
  · cases hT : env "DYNAMODB_TABLE_NAME" with
    | none =>
        exact ⟨"DYNAMODB_TABLE_NAME", by simp [lambda_handler, get_env_variable, hT]⟩
    | some t =>
        by_cases htt : t = ""
        · exact ⟨"DYNAMODB_TABLE_NAME",
            by simp [lambda_handler, get_env_variable, hT, htt]⟩
        · exact ⟨"S3_BUCKET_NAME",
            by simp [lambda_handler, get_env_variable, hT, htt, h]⟩
  · cases hT : env "DYNAMODB_TABLE_NAME" with
    | none =>
        exact ⟨"DYNAMODB_TABLE_NAME", by simp [lambda_handler, get_env_variable, hT]⟩
    | some t =>
        by_cases htt : t = ""
        · exact ⟨"DYNAMODB_TABLE_NAME",
            by simp [lambda_handler, get_env_variable, hT, htt]⟩
        · exact ⟨"S3_BUCKET_NAME",
            by simp [lambda_handler, get_env_variable, hT, htt, h]⟩

/-- Witness for C7: with no environment at all and a storage capability
that would fail any call, the handler raises the configuration error and
attempts no put. -/
theorem lambda_handler_config_spec_witness :
    ∃ varName, lambda_handler envNone s3err sampleEnvelope =
      (.error ("Required environment variable " ++ varName ++ " is not set"), []) :=
  lambda_handler_config_spec envNone s3err sampleEnvelope (Or.inl rfl)

/-- C8: when both configuration values are present but the envelope fails
validation (extraction yields no record), the handler returns the
well-formed empty result `{0, 0, []}` without raising and without any put
call. -/
theorem lambda_handler_invalid_envelope (env : String → Option String)
    (s3 : S3Behavior) (event : J) (t b : String)
    (hT : env "DYNAMODB_TABLE_NAME" = some t) (hTne : t ≠ "")
    (hB : env "S3_BUCKET_NAME" = some b) (hBne : b ≠ "")
    (hx : extract_dynamodb_record event = none) :
    lambda_handler env s3 event = (.ok ⟨0, 0, []⟩, []) := by
  simp [lambda_handler, get_env_variable, hT, hTne, hB, hBne, hx]

/-- Witness for C8: an envelope with `source = "wrong.source"` yields the
empty result. -/
theorem lambda_handler_invalid_envelope_witness :
    lambda_handler env0 s3err wrongSourceEnvelope = (.ok ⟨0, 0, []⟩, []) :=
  lambda_handler_invalid_envelope env0 s3err wrongSourceEnvelope
    "test-table" "test-bucket" rfl (by decide) rfl (by decide) rfl

/-- C3: once aggregation is reached (configuration read, a record
extracted, and the per-record stage completed without an escaped
exception), the handler raises `Failed to process {n} records` with
`n = failedRecords.length` when `failedRecords` is non-empty, and
otherwise returns the `BatchResult` normally. -/
theorem lambda_handler_aggregation (env : String → Option String)
    (s3 : S3Behavior) (event : J) (t b : String) (record : J)
    (pc : Nat) (failed : List FailedRecord) (calls : List PutCall)
    (hT : get_env_variable env "DYNAMODB_TABLE_NAME" = .ok t)
    (hB : get_env_variable env "S3_BUCKET_NAME" = .ok b)
    (hx : extract_dynamodb_record event = some record)
    (hp : processRecord s3 record t b = (.ok (pc, failed), calls)) :
    (failed = [] → lambda_handler env s3 event = (.ok ⟨pc, 1, failed⟩, calls)) ∧
    (failed ≠ [] → lambda_handler env s3 event =
      (.error ("Failed to process " ++ toString failed.length ++ " records"),
        calls)) := by
  constructor <;> intro hf <;>
    simp [lambda_handler, hT, hB, hx, hp, hf]

/-- Witness for C3: on the sample envelope with an always-failing storage,
one failed record is aggregated and the handler raises
`Failed to process 1 records` after having attempted the put. -/
theorem lambda_handler_aggregation_witness :
    lambda_handler env0 s3err sampleEnvelope =
      (.error "Failed to process 1 records",
       [⟨"test-bucket", "test-table/id_user-123_timestamp_1234567890.json",
         jsonDumps sampleRecord, "application/json"⟩]) :=
  (lambda_handler_aggregation env0 s3err sampleEnvelope "test-table" "test-bucket"
    sampleRecord 0 [⟨"id_user-123_timestamp_1234567890", "AccessDenied"⟩]
    [⟨"test-bucket", "test-table/id_user-123_timestamp_1234567890.json",
      jsonDumps sampleRecord, "application/json"⟩]
    rfl rfl rfl rfl).2 (by simp)

/-- Helper: the per-record stage attempts at most one put call, and
attempts one only when the record was classified as a REMOVE. -/
theorem processRecord_calls (s3 : S3Behavior) (record : J) (t b : String) :
    (processRecord s3 record t b).2.length ≤ 1 ∧
      ((processRecord s3 record t b).2 ≠ [] →
        is_delete_event record = Except.ok true) := by
  cases hd : is_delete_event record with
  | error e => simp [processRecord, hd]
  | ok del =>
      cases del with
      | false => simp [processRecord, hd]
      | true =>
          cases hid : get_record_id record with
          | error e => simp [processRecord, archive_record_to_s3, hd, hid]
          | ok rid =>
              cases hcall : s3 ⟨b, t ++ "/" ++ rid ++ ".json", jsonDumps record,
                  "application/json"⟩ with
              | none =>
                  simp [processRecord, archive_record_to_s3, hd, hid, hcall]
              | some e =>
                  simp [processRecord, archive_record_to_s3, hd, hid, hcall,
                    recordFailure]

/-- C10: over any invocation, the storage capability is invoked at most
once, and only when envelope extraction succeeded and the extracted record
is a REMOVE; invalid envelopes and non-REMOVE records never reach the
store. -/
theorem lambda_handler_single_put (env : String → Option String)
    (s3 : S3Behavior) (event : J) :
    (lambda_handler env s3 event).2.length ≤ 1 ∧
    (∀ c ∈ (lambda_handler env s3 event).2, ∃ record,
      extract_dynamodb_record event = some record ∧
        is_delete_event record = Except.ok true) := by
  cases h1 : get_env_variable env "DYNAMODB_TABLE_NAME" with
  | error e => simp [lambda_handler, h1]
  | ok t =>
      cases h2 : get_env_variable env "S3_BUCKET_NAME" with
      | error e => simp [lambda_handler, h1, h2]
      | ok b =>
          cases hx : extract_dynamodb_record event with
          | none => simp [lambda_handler, h1, h2, hx]
          | some record =>
              have hcalls := processRecord_calls s3 record t b
              have hhandler : (lambda_handler env s3 event).2 =
                  (processRecord s3 record t b).2 := by
                rcases hp : processRecord s3 record t b with ⟨res, calls⟩
                cases res with
                | error e => simp [lambda_handler, h1, h2, hx, hp]
                | ok pr =>
                    rcases pr with ⟨pc, failed⟩
                    by_cases hf : failed.isEmpty <;>
                      simp [lambda_handler, h1, h2, hx, hp, hf]
              rw [hhandler]
              refine ⟨hcalls.1, fun c hc => ⟨record, rfl, hcalls.2 ?_⟩⟩
              intro hnil
              rw [hnil] at hc
              exact absurd hc (List.not_mem_nil c)

/-- Witness for C10: on a successful archival invocation the call list has
at most one element and the extracted record is a REMOVE. -/
theorem lambda_handler_single_put_witness :
    (lambda_handler env0 s3ok sampleEnvelope).2.length ≤ 1 ∧
      (∃ record, extract_dynamodb_record sampleEnvelope = some record ∧
        is_delete_event record = Except.ok true) :=
  ⟨(lambda_handler_single_put env0 s3ok sampleEnvelope).1,
   (lambda_handler_single_put env0 s3ok sampleEnvelope).2
     ⟨"test-bucket", "test-table/id_user-123_timestamp_1234567890.json",
       jsonDumps sampleRecord, "application/json"⟩
     (by rw [show (lambda_handler env0 s3ok sampleEnvelope).2 =
         [⟨"test-bucket", "test-table/id_user-123_timestamp_1234567890.json",
           jsonDumps sampleRecord, "application/json"⟩] from rfl]
         exact List.mem_singleton_self _)⟩

/-- C2 counterexample: on a direct-stream style payload with three
candidate records (two REMOVE, one INSERT) and a storage that would fail
the second record's write, the handler returns the empty result
`{0, 0, []}` with no put call and no raise — not
`processedCount = 1, totalRecords = 3` with one failed record. -/
theorem records_payload_counterexample :
    lambda_handler env0 s3failSecond recordsEvent = (Except.ok ⟨0, 0, []⟩, []) ∧
      (BatchResult.mk 0 0 []).totalRecords ≠ 3 ∧
        (BatchResult.mk 0 0 []).processedCount ≠ 1 :=
  ⟨rfl, by decide, by decide⟩

/-- C2 amended: the handler implements only the event-bus variant; a
payload carrying a `Records` sequence (and hence no envelope `source`
field) fails extraction, so the handler obtains zero candidates and
returns `{processedCount: 0, totalRecords: 0, failedRecords: []}` without
raising and without invoking the storage capability. -/
theorem records_payload_amended (env : String → Option String) (s3 : S3Behavior)
    (t b : String) (fields : List (String × J))
    (hT : env "DYNAMODB_TABLE_NAME" = some t) (hTne : t ≠ "")
    (hB : env "S3_BUCKET_NAME" = some b) (hBne : b ≠ "")
    (hs : lookupFirst fields "source" = none) :
    lambda_handler env s3 (J.obj fields) = (.ok ⟨0, 0, []⟩, []) := by
  have hx : extract_dynamodb_record (J.obj fields) = none := by
    simp [extract_dynamodb_record, extractDynamodbRecordE, dictGet, hs, pyEqStr]
  simp [lambda_handler, get_env_variable, hT, hTne, hB, hBne, hx]

/-- Witness for C2 amended: the three-record `Records` payload with the
selectively failing storage yields the empty result. -/
theorem records_payload_amended_witness :
    lambda_handler env0 s3failSecond
      (J.obj [("Records", J.arr [remRecord1, remRecord2, insRecord])]) =
      (.ok ⟨0, 0, []⟩, []) :=
  records_payload_amended env0 s3failSecond "test-table" "test-bucket" _
    rfl (by decide) rfl (by decide) rfl

end DynamoArchive
